import Mathlib

/-!
Verification of the stdnum-js core: the Belgian National Number (NN)
validator (`src/be/nn.ts`) and the country registry dispatch (`index.ts`).

Strings are embedded as `List Char`.  The current instant — read in the
source through `Date.now()` — is passed everywhere as an explicit integer
parameter `now`, a millisecond timestamp; `new Date("YYYY-MM-DD")` and
`new Date("YYYY")` are modelled as the UTC-midnight timestamp of the
corresponding civil date, computed by the standard days-from-civil
conversion.
-/

namespace Stdnum

/-- Characters that JavaScript `parseInt` and the `isdigits` regex treat as
decimal digits: ASCII `'0'`–`'9'` (code points 48–57). -/
def isDigitChar (c : Char) : Bool := 48 ≤ c.toNat && c.toNat ≤ 57

/-- Modelled from the spec: JavaScript `parseInt(s, 10)` on an all-digit
string (the only way the source applies it): the decimal value of the
digit sequence. -/
def parseDigits (s : List Char) : Nat :=
  s.foldl (fun acc c => acc * 10 + (c.toNat - 48)) 0

/-- Fuel-driven worker for `natRepr`; peels decimal digits from the left. -/
def natReprAux : Nat → Nat → List Char
  | 0, _ => []
  | fuel + 1, n =>
      if n = 0 then []
      else natReprAux fuel (n / 10) ++ [Char.ofNat (48 + n % 10)]

/-- Modelled from the spec: JavaScript `${n}` for a natural number `n`,
its decimal representation without leading zeros (`"0"` for zero). -/
def natRepr (n : Nat) : List Char :=
  if n = 0 then ['0'] else natReprAux (n + 1) n

/-- Modelled from the spec: the error-object hierarchy of
`src/exceptions`, collapsed into an error-kind enumeration. -/
inductive ErrorKind where
  | InvalidFormat
  | InvalidLength
  | InvalidChecksum
deriving DecidableEq, Repr

/-- The `ValidateReturn` shape of `src/types.ts`: either a success record
(with the compact form and classification flags) or an error kind. -/
inductive ValidateReturn where
  | valid (compact : List Char) (isIndividual : Bool) (isCompany : Bool)
  | invalid (error : ErrorKind)
deriving DecidableEq, Repr

/-- The `isValid` field of a `ValidateReturn` record. -/
def ValidateReturn.isValid : ValidateReturn → Bool
  | .valid _ _ _ => true
  | .invalid _ => false

/-- Modelled from the spec: `strings.cleanUnicode` of `src/util` — strips
the given formatting characters and reports an optional error.  Per the
spec the error signals input that "cannot be normalized at all"; a
well-typed string is always normalizable, so on `List Char` input the
error component is `none`. -/
def cleanUnicode (value : List Char) (deleteChars : List Char) :
    List Char × Option ErrorKind :=
  (value.filter fun c => !(deleteChars.contains c), none)

/-- Modelled from the spec: `strings.isdigits` of `src/util` — the
character-class check `/^[0-9]+$/`: nonempty and all ASCII digits. -/
def isdigits (s : List Char) : Bool := !s.isEmpty && s.all isDigitChar

/-- Gregorian leap-year rule. -/
def isLeapYear (y : Nat) : Bool :=
  y % 4 == 0 && (y % 100 != 0 || y % 400 == 0)

/-- Length of a month in the Gregorian calendar. -/
def daysInMonth (y m : Nat) : Nat :=
  if m == 2 then (if isLeapYear y then 29 else 28)
  else if m == 4 || m == 6 || m == 9 || m == 11 then 30
  else 31

/-- A real calendar date: month 1–12, day within the month's length,
respecting leap years. -/
def isRealDate (y m d : Nat) : Bool :=
  decide (1 ≤ m) && decide (m ≤ 12) && decide (1 ≤ d) &&
    decide (d ≤ daysInMonth y m)

/-- Modelled from the spec: `isValidDateCompactYYYYMMDD` of `src/util` —
whether an 8-digit `YYYYMMDD` string denotes a real calendar date
(month lengths and leap years respected). -/
def isValidDateCompactYYYYMMDD (s : List Char) : Bool :=
  s.length == 8 && s.all isDigitChar &&
    isRealDate (parseDigits (s.take 4)) (parseDigits ((s.drop 4).take 2))
      (parseDigits (s.drop 6))

/-- Days between a proleptic-Gregorian civil date and 1970-01-01
(Howard Hinnant's days-from-civil algorithm, here for years ≥ 1). -/
def daysFromCivil (y m d : Nat) : Int :=
  let y2 := if m ≤ 2 then y - 1 else y
  let era := y2 / 400
  let yoe := y2 % 400
  let doy := (153 * (if 2 < m then m - 3 else m + 9) + 2) / 5 + (d - 1)
  let doe := yoe * 365 + yoe / 4 - yoe / 100 + doy
  ((era * 146097 + doe : Nat) : Int) - 719468

/-- One day in milliseconds — the `ONE_DAY` constant of `src/be/nn.ts`. -/
def ONE_DAY : Int := 1000 * 60 * 60 * 24

/-- Millisecond timestamp of UTC midnight of a civil date: the value of
the JavaScript `Date` the source builds from a date string. -/
def dateMs (y m d : Nat) : Int := daysFromCivil y m d * 86400000

/-- Modelled from the spec: `new Date(s)` for the `"YYYY-MM-DD"` strings
the source constructs — the UTC-midnight timestamp of that date. -/
def parseISODate (s : List Char) : Int :=
  dateMs (parseDigits (s.take 4)) (parseDigits ((s.drop 5).take 2))
    (parseDigits (s.drop 8))

namespace BeNN

/-- `clean` of `src/be/nn.ts`: strip spaces, dashes and dots. -/
def clean (input : List Char) : List Char × Option ErrorKind :=
  cleanUnicode input [' ', '-', '.']

/-- `compact` of `src/be/nn.ts`: clean, and throw the cleaning error if
one is reported (the throw is embedded as `Except.error`). -/
def compact (input : List Char) : Except ErrorKind (List Char) :=
  match clean input with
  | (_, some err) => .error err
  | (value, none) => .ok value

/-- `format` of `src/be/nn.ts`: the cleaned value, errors ignored. -/
def format (input : List Char) : List Char := (clean input).1

/-- `getFirstSix`: `strings.splitAt(number, 6)[0]`. -/
def getFirstSix (number : List Char) : List Char := number.take 6

/-- `toDateArray`: `strings.splitAt(number, 2, 4)` — the `(yy, mm, dd)`
decomposition of a six-character string. -/
def toDateArray (number : List Char) : List Char × List Char × List Char :=
  (number.take 2, (number.drop 2).take 2, number.drop 4)

/-- `getBaseNumberAndChecksum`: `strings.splitAt(number, 9)` mapped
through `parseInt` — the first nine digits and the last two digits as
numbers. -/
def getBaseNumberAndChecksum (number : List Char) : Nat × Nat :=
  (parseDigits (number.take 9), parseDigits (number.drop 9))

/-- `isCompletelyUnknownDob`: the `"000001"` sentinel. -/
def isCompletelyUnknownDob (dob : List Char) : Bool :=
  dob == ['0', '0', '0', '0', '0', '1']

/-- `isDobWithOnlyYearKnown`: month and day parts both `"00"`, year part
numeric. -/
def isDobWithOnlyYearKnown (dob : List Char) : Bool :=
  let (yy, mm, dd) := toDateArray dob
  isdigits yy && mm == ['0', '0'] && dd == ['0', '0']

/-- `getApproximatelyNow`: `Date.now() + ONE_DAY`, with the clock read
`Date.now()` supplied as the parameter `now`. -/
def getApproximatelyNow (now : Int) : Int := now + ONE_DAY

/-- `getValidPastDates`: try the century prefixes 19 and 20 on the
`yymmdd` string, keep the completions that form a real calendar date,
render them as `"YYYY-MM-DD"`, and keep those not after now + one day. -/
def getValidPastDates (now : Int) (yymmdd : List Char) : List (List Char) :=
  let (yy, mm, dd) := toDateArray yymmdd
  ((([['1', '9'], ['2', '0']].map fun c => c ++ yy).filter fun yyyy =>
      isValidDateCompactYYYYMMDD (yyyy ++ (mm ++ dd))).map fun yyyy =>
      yyyy ++ '-' :: (mm ++ '-' :: dd)).filter fun date =>
    parseISODate date ≤ getApproximatelyNow now

/-- `isValidDob`: some valid past date exists. -/
def isValidDob (now : Int) (dob : List Char) : Bool :=
  !(getValidPastDates now dob).isEmpty

/-- `isValidFirstSix`: sentinel or year-only cases are structurally
valid; otherwise a valid past date of birth is required. -/
def isValidFirstSix (now : Int) (firstSix : List Char) : Bool :=
  if isCompletelyUnknownDob firstSix || isDobWithOnlyYearKnown firstSix then true
  else isValidDob now firstSix

/-- `validStructure`: structural validation looks only at the first six
characters. -/
def validStructure (now : Int) (number : List Char) : Bool :=
  isValidFirstSix now (getFirstSix number)

/-- `yearHasStarted`: `new Date(String(year)) <= getApproximatelyNow()`;
the year-only `Date` is January 1 of that year, UTC. -/
def yearHasStarted (now : Int) (year : Nat) : Bool :=
  decide (dateMs year 1 1 ≤ getApproximatelyNow now)

/-- `toChecksumBasis`: years before 2000 use the base number unchanged;
later years use `parseInt` of the digit 2 prepended to the decimal
rendering of the base number. -/
def toChecksumBasis (year baseNumber : Nat) : Nat :=
  if year < 2000 then baseNumber else parseDigits ('2' :: natRepr baseNumber)

/-- `getChecksumBasesForStandardDate`: one basis per valid past date,
with the year read back from the `"YYYY-MM-DD"` string
(`date.split('-')[0]`, embedded as `takeWhile (· ≠ '-')`). -/
def getChecksumBasesForStandardDate (now : Int) (firstSix : List Char)
    (baseNumber : Nat) : List Nat :=
  let validPastDates := getValidPastDates now firstSix
  let validPastYears := validPastDates.map fun date =>
    parseDigits (date.takeWhile fun c => !(c == '-'))
  validPastYears.map fun year => toChecksumBasis year baseNumber

/-- `getBaseNumbersForOnlyYearKnown`: both century completions of the
year, filtered to those that have started, each mapped to a basis. -/
def getBaseNumbersForOnlyYearKnown (now : Int) (firstSix : List Char)
    (baseNumber : Nat) : List Nat :=
  let yy := (toDateArray firstSix).1
  (([['1', '9'], ['2', '0']].map fun p => parseDigits (p ++ yy)).filter
      (yearHasStarted now)).map fun year => toChecksumBasis year baseNumber

/-- `getChecksumBases`: dispatch on the three structural cases. -/
def getChecksumBases (now : Int) (number : List Char) : List Nat :=
  let firstSix := getFirstSix number
  let baseNumber := (getBaseNumberAndChecksum number).1
  if isCompletelyUnknownDob firstSix then [baseNumber]
  else if isDobWithOnlyYearKnown firstSix then
    getBaseNumbersForOnlyYearKnown now firstSix baseNumber
  else getChecksumBasesForStandardDate now firstSix baseNumber

/-- `validChecksum`: some basis satisfies `basis % 97 + checksum == 97`. -/
def validChecksum (now : Int) (number : List Char) : Bool :=
  let checksumBases := getChecksumBases now number
  let checksum := (getBaseNumberAndChecksum number).2
  checksumBases.any fun csb => csb % 97 + checksum == 97

/-- `validate` of `src/be/nn.ts`.  A thrown cleaning error is embedded as
`Except.error`; every returned `ValidateReturn` value is wrapped in
`Except.ok`. -/
def validateRun (now : Int) (input : List Char) :
    Except ErrorKind ValidateReturn :=
  match compact input with
  | .error err => .error err
  | .ok number =>
    if isdigits number = false ∨ parseDigits number ≤ 0 then
      .ok (.invalid .InvalidFormat)
    else if number.length ≠ 11 then .ok (.invalid .InvalidLength)
    else if validStructure now number = false then
      .ok (.invalid .InvalidFormat)
    else if validChecksum now number = false then
      .ok (.invalid .InvalidChecksum)
    else .ok (.valid number true false)

end BeNN

/-! ### Arithmetic of digit strings -/

theorem parseDigits_nil : parseDigits [] = 0 := rfl

theorem parseDigits_foldl_shift (a : Nat) (l : List Char) :
    l.foldl (fun acc c => acc * 10 + (c.toNat - 48)) a =
      a * 10 ^ l.length + parseDigits l := by
  induction l generalizing a with
  | nil => simp [parseDigits]
  | cons c l ih =>
      simp only [List.foldl_cons, parseDigits, List.length_cons]
      rw [ih (a * 10 + (c.toNat - 48)), ih (0 * 10 + (c.toNat - 48))]
      ring

theorem parseDigits_append (l r : List Char) :
    parseDigits (l ++ r) = parseDigits l * 10 ^ r.length + parseDigits r := by
  unfold parseDigits
  rw [List.foldl_append]
  exact parseDigits_foldl_shift _ r

theorem parseDigits_cons (c : Char) (l : List Char) :
    parseDigits (c :: l) = (c.toNat - 48) * 10 ^ l.length + parseDigits l := by
  have h := parseDigits_append [c] l
  simpa [parseDigits] using h

theorem parseDigits_lt (l : List Char) (h : ∀ c ∈ l, isDigitChar c = true) :
    parseDigits l < 10 ^ l.length := by
  induction l with
  | nil => simp [parseDigits]
  | cons c l ih =>
      have hc : c.toNat - 48 ≤ 9 := by
        have := h c (by simp)
        simp only [isDigitChar, Bool.and_eq_true, decide_eq_true_eq] at this
        omega
      have hl : parseDigits l < 10 ^ l.length := ih fun x hx => h x (by simp [hx])
      rw [parseDigits_cons]
      calc (c.toNat - 48) * 10 ^ l.length + parseDigits l
      _ < (c.toNat - 48) * 10 ^ l.length + 10 ^ l.length := by omega
      _ = (c.toNat - 48 + 1) * 10 ^ l.length := by ring
      _ ≤ 10 * 10 ^ l.length := by
            have : c.toNat - 48 + 1 ≤ 10 := by omega
            exact Nat.mul_le_mul_right _ this
      _ = 10 ^ (l.length + 1) := by ring
      _ = 10 ^ (c :: l).length := by simp

theorem digitChar_round (r : Nat) (h : r < 10) :
    (Char.ofNat (48 + r)).toNat - 48 = r := by
  interval_cases r <;> decide

theorem parseDigits_natReprAux (fuel n : Nat) (h : n ≤ fuel) :
    parseDigits (natReprAux fuel n) = n := by
  induction fuel generalizing n with
  | zero =>
      have : n = 0 := Nat.le_zero.mp h
      subst this; rfl
  | succ fuel ih =>
      by_cases hn : n = 0
      · subst hn; simp [natReprAux, parseDigits]
      · have hdiv : n / 10 ≤ fuel := by omega
        simp only [natReprAux, hn, if_false]
        rw [parseDigits_append, ih (n / 10) hdiv]
        have hr : n % 10 < 10 := Nat.mod_lt _ (by omega)
        have : parseDigits [Char.ofNat (48 + n % 10)] = n % 10 := by
          simp [parseDigits, digitChar_round _ hr]
        simp only [List.length_cons, List.length_nil, this]
        omega

theorem parseDigits_natRepr (n : Nat) : parseDigits (natRepr n) = n := by
  by_cases hn : n = 0
  · subst hn; decide
  · simp only [natRepr, hn, if_false]
    exact parseDigits_natReprAux (n + 1) n (by omega)

theorem parseDigits_two_cons (l : List Char) :
    parseDigits ('2' :: l) = 2 * 10 ^ l.length + parseDigits l := by
  rw [parseDigits_cons]; rfl

/-! ### Digit characters and cleaning -/

theorem isDigitChar_bounds {c : Char} (h : isDigitChar c = true) :
    48 ≤ c.toNat ∧ c.toNat ≤ 57 := by
  simpa [isDigitChar, Bool.and_eq_true, decide_eq_true_eq] using h

theorem isdigits_iff (s : List Char) :
    isdigits s = true ↔ s ≠ [] ∧ ∀ c ∈ s, isDigitChar c = true := by
  simp [isdigits, List.all_eq_true, List.isEmpty_iff]

theorem digit_not_deleted {c : Char} (h : isDigitChar c = true) :
    ([' ', '-', '.'].contains c) = false := by
  obtain ⟨h1, h2⟩ := isDigitChar_bounds h
  have hs : (c == ' ') = false := by
    apply beq_eq_false_iff_ne.mpr
    intro he; rw [he] at h1; exact absurd h1 (by decide)
  have hd : (c == '-') = false := by
    apply beq_eq_false_iff_ne.mpr
    intro he; rw [he] at h1; exact absurd h1 (by decide)
  have hp : (c == '.') = false := by
    apply beq_eq_false_iff_ne.mpr
    intro he; rw [he] at h1; exact absurd h1 (by decide)
  simp only [List.contains]
  simp
  exact ⟨beq_eq_false_iff_ne.mp hs, beq_eq_false_iff_ne.mp hd,
    beq_eq_false_iff_ne.mp hp⟩

theorem BeNN.clean_digits (s : List Char)
    (h : ∀ c ∈ s, isDigitChar c = true) : BeNN.clean s = (s, none) := by
  unfold BeNN.clean cleanUnicode
  have hf : s.filter (fun c => !([' ', '-', '.'].contains c)) = s := by
    apply List.filter_eq_self.mpr
    intro a ha
    rw [digit_not_deleted (h a ha)]; rfl
  rw [hf]

theorem BeNN.compact_eq_format (input : List Char) :
    BeNN.compact input = .ok (BeNN.format input) := rfl

theorem BeNN.compact_digits (s : List Char)
    (h : ∀ c ∈ s, isDigitChar c = true) : BeNN.compact s = .ok s := by
  unfold BeNN.compact
  rw [BeNN.clean_digits s h]

/-! ### Take/drop bookkeeping for fixed-width fields -/

theorem take_append_len (l r : List Char) (n : Nat) (h : l.length = n) :
    (l ++ r).take n = l := by
  subst h; exact List.take_left l r

theorem drop_append_len (l r : List Char) (n : Nat) (h : l.length = n) :
    (l ++ r).drop n = r := by
  subst h; exact List.drop_left l r

theorem list_split_224 (s : List Char) :
    s.take 2 ++ ((s.drop 2).take 2 ++ s.drop 4) = s := by
  have h2 : (s.take 4).take 2 ++ (s.take 4).drop 2 = s.take 4 :=
    List.take_append_drop 2 (s.take 4)
  rw [List.take_take, List.drop_take] at h2
  norm_num at h2
  rw [← List.append_assoc, h2, List.take_append_drop]

theorem takeWhile_digits_dash (l r : List Char)
    (h : ∀ c ∈ l, isDigitChar c = true) :
    (l ++ '-' :: r).takeWhile (fun c => !(c == '-')) = l := by
  induction l with
  | nil => simp [List.takeWhile_cons]
  | cons c l ih =>
      have hb := isDigitChar_bounds (h c (by simp))
      have hc : (c == '-') = false := by
        apply beq_eq_false_iff_ne.mpr
        intro he; rw [he] at hb; exact absurd hb.1 (by decide)
      simp only [List.cons_append, List.takeWhile_cons, hc, Bool.not_false,
        if_true]
      rw [ih fun x hx => h x (by simp [hx])]

/-! ### The date pipeline on fixed-width fields -/

theorem isValidDateCompact_split (c2 yy mm dd : List Char)
    (hc2 : c2.length = 2) (hyy : yy.length = 2) (hmm : mm.length = 2)
    (hdd : dd.length = 2)
    (dc2 : ∀ c ∈ c2, isDigitChar c = true)
    (dyy : ∀ c ∈ yy, isDigitChar c = true)
    (dmm : ∀ c ∈ mm, isDigitChar c = true)
    (ddd : ∀ c ∈ dd, isDigitChar c = true) :
    isValidDateCompactYYYYMMDD ((c2 ++ yy) ++ (mm ++ dd)) =
      isRealDate (parseDigits c2 * 100 + parseDigits yy) (parseDigits mm)
        (parseDigits dd) := by
  unfold isValidDateCompactYYYYMMDD
  have e1 : ((c2 ++ yy) ++ (mm ++ dd)).take 4 = c2 ++ yy :=
    take_append_len _ _ 4 (by simp [hc2, hyy])
  have e2 : ((c2 ++ yy) ++ (mm ++ dd)).drop 4 = mm ++ dd :=
    drop_append_len _ _ 4 (by simp [hc2, hyy])
  have e4 : ((c2 ++ yy) ++ (mm ++ dd)).drop 6 = dd := by
    have h6 : (6 : Nat) = 4 + 2 := by norm_num
    rw [h6, ← List.drop_drop, e2]
    exact drop_append_len _ _ 2 hmm
  have hlen : ((c2 ++ yy) ++ (mm ++ dd)).length = 8 := by
    simp [hc2, hyy, hmm, hdd]
  have hall : ((c2 ++ yy) ++ (mm ++ dd)).all isDigitChar = true := by
    rw [List.all_eq_true]
    intro c hc
    simp only [List.mem_append] at hc
    rcases hc with (hc | hc) | (hc | hc)
    · exact dc2 c hc
    · exact dyy c hc
    · exact dmm c hc
    · exact ddd c hc
  rw [e1, e2, e4, take_append_len mm dd 2 hmm, hlen, hall,
    parseDigits_append c2 yy, hyy]
  norm_num

theorem parseISODate_mk (yyyy mm dd : List Char) (h4 : yyyy.length = 4)
    (hmm : mm.length = 2) :
    parseISODate (yyyy ++ '-' :: (mm ++ '-' :: dd)) =
      dateMs (parseDigits yyyy) (parseDigits mm) (parseDigits dd) := by
  unfold parseISODate
  have e1 : (yyyy ++ '-' :: (mm ++ '-' :: dd)).take 4 = yyyy :=
    take_append_len _ _ 4 h4
  have e5 : (yyyy ++ '-' :: (mm ++ '-' :: dd)).drop 5 = mm ++ '-' :: dd := by
    have ha : yyyy ++ '-' :: (mm ++ '-' :: dd) =
        (yyyy ++ ['-']) ++ (mm ++ '-' :: dd) := by simp
    rw [ha]
    exact drop_append_len _ _ 5 (by simp [h4])
  have e8 : (yyyy ++ '-' :: (mm ++ '-' :: dd)).drop 8 = dd := by
    have ha : yyyy ++ '-' :: (mm ++ '-' :: dd) =
        ((yyyy ++ ['-']) ++ (mm ++ ['-'])) ++ dd := by simp
    rw [ha]
    exact drop_append_len _ _ 8 (by simp [h4, hmm])
  rw [e1, e5, e8, take_append_len mm ('-' :: dd) 2 hmm]

/-- Survival condition for one century completion of a date of birth: a
real calendar date that is not later than the current instant plus one
day.  This is the spec's wording of the candidate-retention rule. -/
def centuryOk (now : Int) (y m d : Nat) : Bool :=
  isRealDate y m d && decide (dateMs y m d ≤ now + ONE_DAY)

theorem BeNN.getValidPastDates_split (now : Int) (yy mm dd : List Char)
    (hyy : yy.length = 2) (hmm : mm.length = 2) (hdd : dd.length = 2)
    (dyy : ∀ c ∈ yy, isDigitChar c = true)
    (dmm : ∀ c ∈ mm, isDigitChar c = true)
    (ddd : ∀ c ∈ dd, isDigitChar c = true) :
    BeNN.getValidPastDates now (yy ++ (mm ++ dd)) =
      (if centuryOk now (1900 + parseDigits yy) (parseDigits mm)
          (parseDigits dd) then
        [(['1', '9'] ++ yy) ++ '-' :: (mm ++ '-' :: dd)] else []) ++
      (if centuryOk now (2000 + parseDigits yy) (parseDigits mm)
          (parseDigits dd) then
        [(['2', '0'] ++ yy) ++ '-' :: (mm ++ '-' :: dd)] else []) := by
  have t1 : (yy ++ (mm ++ dd)).take 2 = yy := take_append_len _ _ 2 hyy
  have t2 : (yy ++ (mm ++ dd)).drop 2 = mm ++ dd := drop_append_len _ _ 2 hyy
  have t3 : ((yy ++ (mm ++ dd)).drop 2).take 2 = mm := by
    rw [t2]; exact take_append_len _ _ 2 hmm
  have t4 : (yy ++ (mm ++ dd)).drop 4 = dd := by
    have h4 : (4 : Nat) = 2 + 2 := by norm_num
    rw [h4, ← List.drop_drop, t2]
    exact drop_append_len _ _ 2 hmm
  have d19 : ∀ c ∈ ['1', '9'], isDigitChar c = true := by decide
  have d20 : ∀ c ∈ ['2', '0'], isDigitChar c = true := by decide
  have p19 : parseDigits ['1', '9'] = 19 := by decide
  have p20 : parseDigits ['2', '0'] = 20 := by decide
  have f19 : isValidDateCompactYYYYMMDD ((['1', '9'] ++ yy) ++ (mm ++ dd)) =
      isRealDate (1900 + parseDigits yy) (parseDigits mm) (parseDigits dd) := by
    rw [isValidDateCompact_split ['1', '9'] yy mm dd rfl hyy hmm hdd d19 dyy
      dmm ddd, p19]
  have f20 : isValidDateCompactYYYYMMDD ((['2', '0'] ++ yy) ++ (mm ++ dd)) =
      isRealDate (2000 + parseDigits yy) (parseDigits mm) (parseDigits dd) := by
    rw [isValidDateCompact_split ['2', '0'] yy mm dd rfl hyy hmm hdd d20 dyy
      dmm ddd, p20]
  have g19 : parseISODate ((['1', '9'] ++ yy) ++ '-' :: (mm ++ '-' :: dd)) =
      dateMs (1900 + parseDigits yy) (parseDigits mm) (parseDigits dd) := by
    rw [parseISODate_mk _ _ _ (by simp [hyy]) hmm, parseDigits_append, hyy, p19]
    norm_num
  have g20 : parseISODate ((['2', '0'] ++ yy) ++ '-' :: (mm ++ '-' :: dd)) =
      dateMs (2000 + parseDigits yy) (parseDigits mm) (parseDigits dd) := by
    rw [parseISODate_mk _ _ _ (by simp [hyy]) hmm, parseDigits_append, hyy, p20]
    norm_num
  cases hR19 : isRealDate (1900 + parseDigits yy) (parseDigits mm)
      (parseDigits dd) <;>
    cases hR20 : isRealDate (2000 + parseDigits yy) (parseDigits mm)
        (parseDigits dd) <;>
      cases hP19 : decide (dateMs (1900 + parseDigits yy) (parseDigits mm)
          (parseDigits dd) ≤ now + ONE_DAY) <;>
        cases hP20 : decide (dateMs (2000 + parseDigits yy) (parseDigits mm)
            (parseDigits dd) ≤ now + ONE_DAY) <;>
          simp_all [BeNN.getValidPastDates, BeNN.toDateArray,
            BeNN.getApproximatelyNow, t1, t3, t4, f19, f20, g19, g20,
            centuryOk, List.filter_cons]

theorem BeNN.isValidDob_split (now : Int) (yy mm dd : List Char)
    (hyy : yy.length = 2) (hmm : mm.length = 2) (hdd : dd.length = 2)
    (dyy : ∀ c ∈ yy, isDigitChar c = true)
    (dmm : ∀ c ∈ mm, isDigitChar c = true)
    (ddd : ∀ c ∈ dd, isDigitChar c = true) :
    BeNN.isValidDob now (yy ++ (mm ++ dd)) =
      (centuryOk now (1900 + parseDigits yy) (parseDigits mm)
          (parseDigits dd) ||
        centuryOk now (2000 + parseDigits yy) (parseDigits mm)
          (parseDigits dd)) := by
  unfold BeNN.isValidDob
  rw [BeNN.getValidPastDates_split now yy mm dd hyy hmm hdd dyy dmm ddd]
  cases h1 : centuryOk now (1900 + parseDigits yy) (parseDigits mm)
      (parseDigits dd) <;>
    cases h2 : centuryOk now (2000 + parseDigits yy) (parseDigits mm)
        (parseDigits dd) <;>
      simp [h1, h2]

theorem BeNN.standardBases_split (now : Int) (yy mm dd : List Char)
    (bn : Nat)
    (hyy : yy.length = 2) (hmm : mm.length = 2) (hdd : dd.length = 2)
    (dyy : ∀ c ∈ yy, isDigitChar c = true)
    (dmm : ∀ c ∈ mm, isDigitChar c = true)
    (ddd : ∀ c ∈ dd, isDigitChar c = true) :
    BeNN.getChecksumBasesForStandardDate now (yy ++ (mm ++ dd)) bn =
      (if centuryOk now (1900 + parseDigits yy) (parseDigits mm)
          (parseDigits dd) then
        [BeNN.toChecksumBasis (1900 + parseDigits yy) bn] else []) ++
      (if centuryOk now (2000 + parseDigits yy) (parseDigits mm)
          (parseDigits dd) then
        [BeNN.toChecksumBasis (2000 + parseDigits yy) bn] else []) := by
  unfold BeNN.getChecksumBasesForStandardDate
  rw [BeNN.getValidPastDates_split now yy mm dd hyy hmm hdd dyy dmm ddd]
  have tw : List.takeWhile (fun c => !(c == '-')) (yy ++ '-' :: (mm ++ '-' :: dd)) = yy :=
    takeWhile_digits_dash yy _ dyy
  have y19 : parseDigits ('1' :: '9' :: yy) = 1900 + parseDigits yy := by
    have h := parseDigits_append ['1', '9'] yy
    simp only [List.cons_append, List.nil_append] at h
    rw [h, hyy]
    have h19 : parseDigits ['1', '9'] = 19 := by decide
    rw [h19]
    norm_num
  have y20 : parseDigits ('2' :: '0' :: yy) = 2000 + parseDigits yy := by
    have h := parseDigits_append ['2', '0'] yy
    simp only [List.cons_append, List.nil_append] at h
    rw [h, hyy]
    have h20 : parseDigits ['2', '0'] = 20 := by decide
    rw [h20]
    norm_num
  cases h1 : centuryOk now (1900 + parseDigits yy) (parseDigits mm)
      (parseDigits dd) <;>
    cases h2 : centuryOk now (2000 + parseDigits yy) (parseDigits mm)
        (parseDigits dd) <;>
      simp [h1, h2, tw, y19, y20]

theorem BeNN.getFirstSix_decomp (s : List Char) :
    BeNN.getFirstSix s =
      (BeNN.toDateArray (BeNN.getFirstSix s)).1 ++
        ((BeNN.toDateArray (BeNN.getFirstSix s)).2.1 ++
          (BeNN.toDateArray (BeNN.getFirstSix s)).2.2) :=
  (list_split_224 _).symm

theorem firstSix_facts (s : List Char) (hl : s.length = 11)
    (hd : ∀ c ∈ s, isDigitChar c = true) :
    ((BeNN.toDateArray (BeNN.getFirstSix s)).1.length = 2 ∧
      (BeNN.toDateArray (BeNN.getFirstSix s)).2.1.length = 2 ∧
      (BeNN.toDateArray (BeNN.getFirstSix s)).2.2.length = 2) ∧
    ((∀ c ∈ (BeNN.toDateArray (BeNN.getFirstSix s)).1, isDigitChar c = true) ∧
      (∀ c ∈ (BeNN.toDateArray (BeNN.getFirstSix s)).2.1,
        isDigitChar c = true) ∧
      (∀ c ∈ (BeNN.toDateArray (BeNN.getFirstSix s)).2.2,
        isDigitChar c = true)) := by
  have hF : (BeNN.getFirstSix s).length = 6 := by
    simp [BeNN.getFirstSix, List.length_take, hl]
  have hsub : ∀ c ∈ BeNN.getFirstSix s, isDigitChar c = true := fun c hc =>
    hd c (List.take_subset 6 s hc)
  unfold BeNN.toDateArray
  refine ⟨⟨?_, ?_, ?_⟩, ?_, ?_, ?_⟩
  · simp [List.length_take, hF]
  · simp [List.length_take, List.length_drop, hF]
  · simp [List.length_drop, hF]
  · exact fun c hc => hsub c (List.take_subset _ _ hc)
  · exact fun c hc => hsub c (List.drop_subset _ _ (List.take_subset _ _ hc))
  · exact fun c hc => hsub c (List.drop_subset _ _ hc)

theorem BeNN.validStructure_eq (now : Int) (s : List Char)
    (hl : s.length = 11) (hd : ∀ c ∈ s, isDigitChar c = true) :
    BeNN.validStructure now s =
      (BeNN.isCompletelyUnknownDob (BeNN.getFirstSix s) ||
        BeNN.isDobWithOnlyYearKnown (BeNN.getFirstSix s) ||
        (centuryOk now
            (1900 + parseDigits (BeNN.toDateArray (BeNN.getFirstSix s)).1)
            (parseDigits (BeNN.toDateArray (BeNN.getFirstSix s)).2.1)
            (parseDigits (BeNN.toDateArray (BeNN.getFirstSix s)).2.2) ||
          centuryOk now
            (2000 + parseDigits (BeNN.toDateArray (BeNN.getFirstSix s)).1)
            (parseDigits (BeNN.toDateArray (BeNN.getFirstSix s)).2.1)
            (parseDigits (BeNN.toDateArray (BeNN.getFirstSix s)).2.2))) := by
  obtain ⟨⟨l1, l2, l3⟩, d1, d2, d3⟩ := firstSix_facts s hl hd
  have hdob : BeNN.isValidDob now (BeNN.getFirstSix s) =
      (centuryOk now
          (1900 + parseDigits (BeNN.toDateArray (BeNN.getFirstSix s)).1)
          (parseDigits (BeNN.toDateArray (BeNN.getFirstSix s)).2.1)
          (parseDigits (BeNN.toDateArray (BeNN.getFirstSix s)).2.2) ||
        centuryOk now
          (2000 + parseDigits (BeNN.toDateArray (BeNN.getFirstSix s)).1)
          (parseDigits (BeNN.toDateArray (BeNN.getFirstSix s)).2.1)
          (parseDigits (BeNN.toDateArray (BeNN.getFirstSix s)).2.2)) := by
    conv_lhs => rw [BeNN.getFirstSix_decomp s]
    exact BeNN.isValidDob_split now _ _ _ l1 l2 l3 d1 d2 d3
  unfold BeNN.validStructure BeNN.isValidFirstSix
  cases hA : BeNN.isCompletelyUnknownDob (BeNN.getFirstSix s) <;>
    cases hB : BeNN.isDobWithOnlyYearKnown (BeNN.getFirstSix s) <;>
      simp [hA, hB, hdob]

theorem BeNN.validateRun_checks (now : Int) (s : List Char)
    (hdig : isdigits s = true) (hpos : 0 < parseDigits s)
    (hlen : s.length = 11) :
    BeNN.validateRun now s =
      (if BeNN.validStructure now s = false then .ok (.invalid .InvalidFormat)
        else if BeNN.validChecksum now s = false then
          .ok (.invalid .InvalidChecksum)
        else .ok (.valid s true false)) := by
  have hds : ∀ c ∈ s, isDigitChar c = true := ((isdigits_iff s).mp hdig).2
  have h1 : ¬(isdigits s = false ∨ parseDigits s ≤ 0) := by
    push_neg
    constructor
    · rw [hdig]; exact fun h => nomatch h
    · omega
  have h2 : ¬(s.length ≠ 11) := by rw [hlen]; omega
  simp only [BeNN.validateRun, BeNN.compact_digits s hds, h1, h2, if_false,
    ite_false, if_neg h1, if_neg h2]

/-- The spec's three-case statement of structural validity, worded as in
the specification: the `"000001"` sentinel; the year-only-known shape
(month and day parts `"00"`, year part numeric); or some century
completion in {1900, 2000} of the `(yy, mm, dd)` decomposition that is a
real calendar date not later than the current instant plus one day. -/
def structuralSpec (now : Int) (s : List Char) : Prop :=
  BeNN.getFirstSix s = ['0', '0', '0', '0', '0', '1'] ∨
  (isdigits (BeNN.toDateArray (BeNN.getFirstSix s)).1 = true ∧
    (BeNN.toDateArray (BeNN.getFirstSix s)).2.1 = ['0', '0'] ∧
    (BeNN.toDateArray (BeNN.getFirstSix s)).2.2 = ['0', '0']) ∨
  (∃ c ∈ [1900, 2000],
    centuryOk now (c + parseDigits (BeNN.toDateArray (BeNN.getFirstSix s)).1)
      (parseDigits (BeNN.toDateArray (BeNN.getFirstSix s)).2.1)
      (parseDigits (BeNN.toDateArray (BeNN.getFirstSix s)).2.2) = true)

/-- C2: for an 11-digit all-digit positive input, structural validation
depends only on the first six digits and holds exactly in the three
spec cases (sentinel `"000001"`, year-only-known, or a century
completion that is a real calendar date not after now plus one day);
when none of the cases holds, `validate` reports `InvalidFormat`. -/
theorem nn_structural_cases (now : Int) (s : List Char)
    (hdig : isdigits s = true) (hlen : s.length = 11)
    (hpos : 0 < parseDigits s) :
    (BeNN.validStructure now s = true ↔ structuralSpec now s) ∧
    (∀ t : List Char, BeNN.getFirstSix t = BeNN.getFirstSix s →
      BeNN.validStructure now t = BeNN.validStructure now s) ∧
    (¬ structuralSpec now s →
      BeNN.validateRun now s = .ok (.invalid .InvalidFormat)) := by
  have hds : ∀ c ∈ s, isDigitChar c = true := ((isdigits_iff s).mp hdig).2
  have e1 : BeNN.isCompletelyUnknownDob (BeNN.getFirstSix s) = true ↔
      BeNN.getFirstSix s = ['0', '0', '0', '0', '0', '1'] := by
    simp [BeNN.isCompletelyUnknownDob]
  have e2 : BeNN.isDobWithOnlyYearKnown (BeNN.getFirstSix s) = true ↔
      (isdigits (BeNN.toDateArray (BeNN.getFirstSix s)).1 = true ∧
        (BeNN.toDateArray (BeNN.getFirstSix s)).2.1 = ['0', '0'] ∧
        (BeNN.toDateArray (BeNN.getFirstSix s)).2.2 = ['0', '0']) := by
    simp only [BeNN.isDobWithOnlyYearKnown, Bool.and_eq_true, beq_iff_eq,
      and_assoc]
  have e3 : (∃ c ∈ [1900, 2000],
      centuryOk now
        (c + parseDigits (BeNN.toDateArray (BeNN.getFirstSix s)).1)
        (parseDigits (BeNN.toDateArray (BeNN.getFirstSix s)).2.1)
        (parseDigits (BeNN.toDateArray (BeNN.getFirstSix s)).2.2) = true) ↔
      (centuryOk now
          (1900 + parseDigits (BeNN.toDateArray (BeNN.getFirstSix s)).1)
          (parseDigits (BeNN.toDateArray (BeNN.getFirstSix s)).2.1)
          (parseDigits (BeNN.toDateArray (BeNN.getFirstSix s)).2.2) = true ∨
        centuryOk now
          (2000 + parseDigits (BeNN.toDateArray (BeNN.getFirstSix s)).1)
          (parseDigits (BeNN.toDateArray (BeNN.getFirstSix s)).2.1)
          (parseDigits (BeNN.toDateArray (BeNN.getFirstSix s)).2.2) = true) := by
    constructor
    · rintro ⟨c, hc, h⟩
      simp only [List.mem_cons, List.not_mem_nil, or_false] at hc
      rcases hc with rfl | rfl
      · exact Or.inl h
      · exact Or.inr h
    · rintro (h | h)
      · exact ⟨1900, by simp, h⟩
      · exact ⟨2000, by simp, h⟩
  have hiff : BeNN.validStructure now s = true ↔ structuralSpec now s := by
    rw [BeNN.validStructure_eq now s hlen hds]
    unfold structuralSpec
    rw [e3]
    simp only [Bool.or_eq_true, e1, e2]
    rw [or_assoc]
  refine ⟨hiff, ?_, ?_⟩
  · intro t ht
    unfold BeNN.validStructure
    rw [ht]
  · intro hns
    have hfalse : BeNN.validStructure now s = false := by
      rcases Bool.eq_false_or_eq_true (BeNN.validStructure now s) with h | h
      · exact absurd (hiff.mp h) hns
      · exact h
    rw [BeNN.validateRun_checks now s hdig hpos hlen, hfalse]
    simp

/-- C2 witness: the concrete instant 2023-11-14 and the concrete input
`"93040100196"` discharge the hypotheses; its first six digits decode to
the real past date 1993-04-01, so the structural-case disjunction holds
and structural validation succeeds. -/
theorem nn_structural_cases_witness :
    BeNN.validStructure 1700000000000 ['9', '3', '0', '4', '0', '1', '0',
      '0', '1', '9', '6'] = true ↔
      structuralSpec 1700000000000 ['9', '3', '0', '4', '0', '1', '0', '0',
        '1', '9', '6'] :=
  (nn_structural_cases 1700000000000 ['9', '3', '0', '4', '0', '1', '0',
    '0', '1', '9', '6'] (by decide) (by decide) (by decide)).1

theorem BeNN.validChecksum_iff (now : Int) (s : List Char) :
    BeNN.validChecksum now s = true ↔
      ∃ b ∈ BeNN.getChecksumBases now s,
        b % 97 + parseDigits (s.drop 9) = 97 := by
  unfold BeNN.validChecksum BeNN.getBaseNumberAndChecksum
  rw [List.any_eq_true]
  simp only [beq_iff_eq]

/-- C1: for an 11-digit all-digit positive input that passes structural
validation, `validate` succeeds exactly when some checksum basis `b` in
the candidate set satisfies `b % 97 + checksum = 97` (checksum being the
number formed by the last two digits), reports `InvalidChecksum` when no
basis does, and — when both century completions of the first six digits
are real calendar dates not after now plus one day — tries exactly the
two bases derived from the 19xx and the 20xx year. -/
theorem nn_validate_checksum_iff (now : Int) (s : List Char)
    (hdig : isdigits s = true) (hlen : s.length = 11)
    (hpos : 0 < parseDigits s)
    (hstr : BeNN.validStructure now s = true) :
    (BeNN.validateRun now s = .ok (.valid s true false) ↔
      ∃ b ∈ BeNN.getChecksumBases now s,
        b % 97 + parseDigits (s.drop 9) = 97) ∧
    ((∀ b ∈ BeNN.getChecksumBases now s,
        b % 97 + parseDigits (s.drop 9) ≠ 97) →
      BeNN.validateRun now s = .ok (.invalid .InvalidChecksum)) ∧
    (isRealDate (1900 + parseDigits (BeNN.toDateArray (BeNN.getFirstSix s)).1)
        (parseDigits (BeNN.toDateArray (BeNN.getFirstSix s)).2.1)
        (parseDigits (BeNN.toDateArray (BeNN.getFirstSix s)).2.2) = true →
      dateMs (1900 + parseDigits (BeNN.toDateArray (BeNN.getFirstSix s)).1)
        (parseDigits (BeNN.toDateArray (BeNN.getFirstSix s)).2.1)
        (parseDigits (BeNN.toDateArray (BeNN.getFirstSix s)).2.2) ≤
          now + ONE_DAY →
      isRealDate (2000 + parseDigits (BeNN.toDateArray (BeNN.getFirstSix s)).1)
        (parseDigits (BeNN.toDateArray (BeNN.getFirstSix s)).2.1)
        (parseDigits (BeNN.toDateArray (BeNN.getFirstSix s)).2.2) = true →
      dateMs (2000 + parseDigits (BeNN.toDateArray (BeNN.getFirstSix s)).1)
        (parseDigits (BeNN.toDateArray (BeNN.getFirstSix s)).2.1)
        (parseDigits (BeNN.toDateArray (BeNN.getFirstSix s)).2.2) ≤
          now + ONE_DAY →
      BeNN.getChecksumBases now s =
        [BeNN.toChecksumBasis
            (1900 + parseDigits (BeNN.toDateArray (BeNN.getFirstSix s)).1)
            (BeNN.getBaseNumberAndChecksum s).1,
          BeNN.toChecksumBasis
            (2000 + parseDigits (BeNN.toDateArray (BeNN.getFirstSix s)).1)
            (BeNN.getBaseNumberAndChecksum s).1]) := by
  have hds : ∀ c ∈ s, isDigitChar c = true := ((isdigits_iff s).mp hdig).2
  have hpipe : BeNN.validateRun now s =
      (if BeNN.validChecksum now s = false then
        .ok (.invalid .InvalidChecksum)
      else .ok (.valid s true false)) := by
    rw [BeNN.validateRun_checks now s hdig hpos hlen, hstr]
    simp
  refine ⟨⟨?_, ?_⟩, ?_, ?_⟩
  · intro h
    apply (BeNN.validChecksum_iff now s).mp
    rcases Bool.eq_false_or_eq_true (BeNN.validChecksum now s) with hv | hv
    · exact hv
    · rw [hpipe, hv] at h
      simp at h
  · intro h
    have hv : BeNN.validChecksum now s = true :=
      (BeNN.validChecksum_iff now s).mpr h
    rw [hpipe, hv]
    simp
  · intro hall
    have hv : BeNN.validChecksum now s = false := by
      rcases Bool.eq_false_or_eq_true (BeNN.validChecksum now s) with hv | hv
      · obtain ⟨b, hb, he⟩ := (BeNN.validChecksum_iff now s).mp hv
        exact absurd he (hall b hb)
      · exact hv
    rw [hpipe, hv]
    simp
  · intro h19r h19p h20r h20p
    obtain ⟨⟨l1, l2, l3⟩, d1, d2, d3⟩ := firstSix_facts s hlen hds
    have hM : 1 ≤ parseDigits (BeNN.toDateArray (BeNN.getFirstSix s)).2.1 := by
      simp only [isRealDate, Bool.and_eq_true, decide_eq_true_eq] at h19r
      exact h19r.1.1.1
    have hmm00 : (BeNN.toDateArray (BeNN.getFirstSix s)).2.1 ≠ ['0', '0'] := by
      intro he
      rw [he] at hM
      have : parseDigits ['0', '0'] = 0 := by decide
      omega
    have hsent : BeNN.isCompletelyUnknownDob (BeNN.getFirstSix s) = false := by
      rcases Bool.eq_false_or_eq_true
          (BeNN.isCompletelyUnknownDob (BeNN.getFirstSix s)) with ht | hf
      · exfalso
        simp only [BeNN.isCompletelyUnknownDob, beq_iff_eq] at ht
        apply hmm00
        rw [ht]
        decide
      · exact hf
    have hyo : BeNN.isDobWithOnlyYearKnown (BeNN.getFirstSix s) = false := by
      rcases Bool.eq_false_or_eq_true
          (BeNN.isDobWithOnlyYearKnown (BeNN.getFirstSix s)) with ht | hf
      · exfalso
        simp only [BeNN.isDobWithOnlyYearKnown, Bool.and_eq_true,
          beq_iff_eq] at ht
        exact hmm00 ht.1.2
      · exact hf
    have h19ok : centuryOk now
        (1900 + parseDigits (BeNN.toDateArray (BeNN.getFirstSix s)).1)
        (parseDigits (BeNN.toDateArray (BeNN.getFirstSix s)).2.1)
        (parseDigits (BeNN.toDateArray (BeNN.getFirstSix s)).2.2) = true := by
      unfold centuryOk
      rw [h19r]
      simp [h19p]
    have h20ok : centuryOk now
        (2000 + parseDigits (BeNN.toDateArray (BeNN.getFirstSix s)).1)
        (parseDigits (BeNN.toDateArray (BeNN.getFirstSix s)).2.1)
        (parseDigits (BeNN.toDateArray (BeNN.getFirstSix s)).2.2) = true := by
      unfold centuryOk
      rw [h20r]
      simp [h20p]
    simp only [BeNN.getChecksumBases, hsent, hyo, Bool.false_eq_true,
      if_false]
    conv_lhs => rw [BeNN.getFirstSix_decomp s]
    rw [BeNN.standardBases_split now _ _ _ _ l1 l2 l3 d1 d2 d3, h19ok, h20ok]
    simp

/-- C1 witness: at the instant 2023-11-14 the input `"01010100111"` is
11 digits, positive and structurally valid, and both century completions
1901-01-01 and 2001-01-01 are real past dates, so the theorem applies
with every hypothesis discharged by computation. -/
theorem nn_validate_checksum_iff_witness :
    (BeNN.validateRun 1700000000000 ['0', '1', '0', '1', '0', '1', '0', '0',
        '1', '1', '1'] =
      .ok (.valid ['0', '1', '0', '1', '0', '1', '0', '0', '1', '1', '1']
        true false) ↔
      ∃ b ∈ BeNN.getChecksumBases 1700000000000 ['0', '1', '0', '1', '0',
        '1', '0', '0', '1', '1', '1'],
        b % 97 + parseDigits (['0', '1', '0', '1', '0', '1', '0', '0', '1',
          '1', '1'].drop 9) = 97) ∧
    BeNN.getChecksumBases 1700000000000 ['0', '1', '0', '1', '0', '1', '0',
        '0', '1', '1', '1'] =
      [BeNN.toChecksumBasis
          (1900 + parseDigits (BeNN.toDateArray (BeNN.getFirstSix ['0', '1',
            '0', '1', '0', '1', '0', '0', '1', '1', '1'])).1)
          (BeNN.getBaseNumberAndChecksum ['0', '1', '0', '1', '0', '1', '0',
            '0', '1', '1', '1']).1,
        BeNN.toChecksumBasis
          (2000 + parseDigits (BeNN.toDateArray (BeNN.getFirstSix ['0', '1',
            '0', '1', '0', '1', '0', '0', '1', '1', '1'])).1)
          (BeNN.getBaseNumberAndChecksum ['0', '1', '0', '1', '0', '1', '0',
            '0', '1', '1', '1']).1] :=
  ⟨(nn_validate_checksum_iff 1700000000000 ['0', '1', '0', '1', '0', '1',
      '0', '0', '1', '1', '1'] (by decide) (by decide) (by decide)
      (by decide)).1,
    (nn_validate_checksum_iff 1700000000000 ['0', '1', '0', '1', '0', '1',
      '0', '0', '1', '1', '1'] (by decide) (by decide) (by decide)
      (by decide)).2.2 (by decide) (by decide) (by decide) (by decide)⟩

/-- C3 counterexample: on the structurally valid input `"93040100196"`
(candidate year 1993, before 2000) the single checksum basis the code
computes is 930401001 — the number formed by the FIRST NINE digits — and
not the number 1 formed by digits 7–9, refuting the claim that for years
before 2000 the basis equals the digits-7-9 value. -/
theorem nn_basis_digits79_counterexample :
    BeNN.getChecksumBases 1700000000000 ['9', '3', '0', '4', '0', '1', '0',
      '0', '1', '9', '6'] = [930401001] ∧
    parseDigits (List.take 3 (List.drop 6 ['9', '3', '0', '4', '0', '1',
      '0', '0', '1', '9', '6'])) = 1 ∧
    (930401001 : Nat) ≠ 1 := by
  refine ⟨by decide, by decide, by decide⟩

/-- C3 (amended): the `baseNumber` of a checksum-basis computation is the
number formed by the first NINE digits of the compact form (so it ranges
over 0–999999999, not 0–999); with that reading the century-adjustment
rule holds: a basis for a year before 2000 equals `baseNumber`
unmodified, and a basis for 2000 or later equals the decimal
concatenation of the digit 2 and `baseNumber`. -/
theorem nn_basis_century_rule :
    (∀ s : List Char, s.length = 11 → (∀ c ∈ s, isDigitChar c = true) →
      (BeNN.getBaseNumberAndChecksum s).1 = parseDigits (s.take 9) ∧
        (BeNN.getBaseNumberAndChecksum s).1 < 1000000000) ∧
    (∀ y n : Nat,
      (y < 2000 → BeNN.toChecksumBasis y n = n) ∧
      (2000 ≤ y →
        BeNN.toChecksumBasis y n = 2 * 10 ^ (natRepr n).length + n)) := by
  constructor
  · intro s hlen hdig
    refine ⟨rfl, ?_⟩
    have hsub : ∀ c ∈ s.take 9, isDigitChar c = true := fun c hc =>
      hdig c (List.take_subset 9 s hc)
    have hl9 : (s.take 9).length = 9 := by simp [List.length_take, hlen]
    have := parseDigits_lt (s.take 9) hsub
    rw [hl9] at this
    exact this
  · intro y n
    constructor
    · intro hy
      unfold BeNN.toChecksumBasis
      rw [if_pos hy]
    · intro hy
      unfold BeNN.toChecksumBasis
      rw [if_neg (by omega), parseDigits_two_cons, parseDigits_natRepr]

/-- C3 witness: the base number of `"93040100196"` is its first nine
digits and is below 10^9; basis for year 1999 with base 5 is 5, basis
for year 2023 with base 5 is the concatenation 25. -/
theorem nn_basis_century_rule_witness :
    ((BeNN.getBaseNumberAndChecksum ['9', '3', '0', '4', '0', '1', '0', '0',
        '1', '9', '6']).1 =
      parseDigits (['9', '3', '0', '4', '0', '1', '0', '0', '1', '9',
        '6'].take 9) ∧
      (BeNN.getBaseNumberAndChecksum ['9', '3', '0', '4', '0', '1', '0',
        '0', '1', '9', '6']).1 < 1000000000) ∧
    (BeNN.toChecksumBasis 1999 5 = 5 ∧
      BeNN.toChecksumBasis 2023 5 = 2 * 10 ^ (natRepr 5).length + 5) :=
  ⟨nn_basis_century_rule.1 ['9', '3', '0', '4', '0', '1', '0', '0', '1',
      '9', '6'] (by decide) (by decide),
    (nn_basis_century_rule.2 1999 5).1 (by decide),
    (nn_basis_century_rule.2 2023 5).2 (by decide)⟩

/-- C4: a basis with `b % 97 = 0` satisfies the checksum equation only
with checksum 97; consequently an 11-digit input whose trailing two
digits are `"00"` (checksum 0) never validates — if it is structurally
valid it is rejected with `InvalidChecksum`. -/
theorem nn_checksum_zero_rejected (now : Int) (s : List Char)
    (hdig : isdigits s = true) (hlen : s.length = 11)
    (h00 : s.drop 9 = ['0', '0']) :
    (∀ b c : Nat, b % 97 = 0 → (b % 97 + c = 97 ↔ c = 97)) ∧
    (∀ r, BeNN.validateRun now s = .ok r → r.isValid = false) ∧
    (0 < parseDigits s → BeNN.validStructure now s = true →
      BeNN.validateRun now s = .ok (.invalid .InvalidChecksum)) := by
  have hds : ∀ c ∈ s, isDigitChar c = true := ((isdigits_iff s).mp hdig).2
  have hck : parseDigits (s.drop 9) = 0 := by
    rw [h00]
    decide
  have hvc : BeNN.validChecksum now s = false := by
    rcases Bool.eq_false_or_eq_true (BeNN.validChecksum now s) with hv | hv
    · exfalso
      obtain ⟨b, hb, he⟩ := (BeNN.validChecksum_iff now s).mp hv
      rw [hck] at he
      have : b % 97 < 97 := Nat.mod_lt b (by norm_num)
      omega
    · exact hv
  refine ⟨?_, ?_, ?_⟩
  · intro b c hb
    rw [hb]
    omega
  · intro r hr
    by_cases hpos : 0 < parseDigits s
    · rcases Bool.eq_false_or_eq_true (BeNN.validStructure now s) with
        hstr | hstr
      · rw [BeNN.validateRun_checks now s hdig hpos hlen, hstr, hvc] at hr
        simp at hr
        subst hr
        rfl
      · rw [BeNN.validateRun_checks now s hdig hpos hlen, hstr] at hr
        simp at hr
        subst hr
        rfl
    · have h1 : isdigits s = false ∨ parseDigits s ≤ 0 := Or.inr (by omega)
      simp only [BeNN.validateRun, BeNN.compact_digits s hds,
        if_pos h1] at hr
      simp at hr
      subst hr
      rfl
  · intro hpos hstr
    rw [BeNN.validateRun_checks now s hdig hpos hlen, hstr, hvc]
    simp

/-- C4 witness: at the instant 2023-11-14 the input `"93040100100"` is
structurally valid, ends in `"00"`, and is rejected with
`InvalidChecksum`; the boundary equivalence is exercised at `b = 194`,
`c = 97`. -/
theorem nn_checksum_zero_rejected_witness :
    (194 % 97 + 97 = 97 ↔ 97 = 97) ∧
    BeNN.validateRun 1700000000000 ['9', '3', '0', '4', '0', '1', '0', '0',
      '1', '0', '0'] = .ok (.invalid .InvalidChecksum) :=
  ⟨(nn_checksum_zero_rejected 1700000000000 ['9', '3', '0', '4', '0', '1',
      '0', '0', '1', '0', '0'] (by decide) (by decide) (by decide)).1 194 97
      (by decide),
    (nn_checksum_zero_rejected 1700000000000 ['9', '3', '0', '4', '0', '1',
      '0', '0', '1', '0', '0'] (by decide) (by decide) (by decide)).2.2
      (by decide) (by decide)⟩

/-- C5: `validate` is total as a value-returning function: for every
input and every instant it returns a `ValidateReturn` value and never
propagates an exception (the `Except.error` branch is unreachable). -/
theorem BeNN.validateRun_eq_ok (now : Int) (input : List Char) :
    BeNN.validateRun now input =
      .ok (if isdigits (BeNN.format input) = false ∨
            parseDigits (BeNN.format input) ≤ 0 then
          .invalid .InvalidFormat
        else if (BeNN.format input).length ≠ 11 then .invalid .InvalidLength
        else if BeNN.validStructure now (BeNN.format input) = false then
          .invalid .InvalidFormat
        else if BeNN.validChecksum now (BeNN.format input) = false then
          .invalid .InvalidChecksum
        else .valid (BeNN.format input) true false) := by
  simp only [BeNN.validateRun, BeNN.compact, BeNN.format, BeNN.clean,
    cleanUnicode]
  split_ifs <;> rfl

theorem nn_validate_total (now : Int) (input : List Char) :
    ∃ r : ValidateReturn, BeNN.validateRun now input = .ok r :=
  ⟨_, BeNN.validateRun_eq_ok now input⟩

/-- C6 counterexample: the input `"A"` cleans to itself with zero digits
(digit count 0, not 11), yet `validate` reports `InvalidFormat`, not
`InvalidLength` — the character-class check runs before the length
check. -/
theorem nn_invalid_length_counterexample :
    (BeNN.format ['A']).countP (fun c => isDigitChar c) ≠ 11 ∧
    BeNN.validateRun 0 ['A'] = .ok (.invalid .InvalidFormat) := by
  refine ⟨by decide, rfl⟩

/-- C6 (amended): for every input whose CLEANED form is all digits and
numerically positive, a cleaned length different from 11 makes
`validate` report `InvalidLength`.  (Inputs failing the digit or
positivity check get `InvalidFormat` first, so the original "regardless
of content" reading fails.) -/
theorem nn_invalid_length_amended (now : Int) (input : List Char)
    (hdig : isdigits (BeNN.format input) = true)
    (hpos : 0 < parseDigits (BeNN.format input))
    (hlen : (BeNN.format input).length ≠ 11) :
    BeNN.validateRun now input = .ok (.invalid .InvalidLength) := by
  have h1 : ¬(isdigits (BeNN.format input) = false ∨
      parseDigits (BeNN.format input) ≤ 0) := by
    push_neg
    constructor
    · rw [hdig]
      exact fun h => nomatch h
    · omega
  simp only [BeNN.validateRun, BeNN.compact_eq_format, if_neg h1,
    if_pos hlen]

/-- C6 witness: `"123"` cleans to itself, is all digits and positive,
has length 3 ≠ 11, and is reported `InvalidLength`. -/
theorem nn_invalid_length_amended_witness :
    BeNN.validateRun 0 ['1', '2', '3'] = .ok (.invalid .InvalidLength) :=
  nn_invalid_length_amended 0 ['1', '2', '3'] (by decide) (by decide)
    (by decide)

/-- C9: compacting the formatted rendering of a valid compact form (an
11-ASCII-digit string) returns exactly the original string, with no
cleaning failure. -/
theorem nn_compact_format_roundtrip (c : List Char) (_hlen : c.length = 11)
    (hdig : ∀ ch ∈ c, isDigitChar ch = true) :
    BeNN.compact (BeNN.format c) = .ok c := by
  have hf : BeNN.format c = c := by
    unfold BeNN.format
    rw [BeNN.clean_digits c hdig]
  rw [hf, BeNN.compact_digits c hdig]

/-- C9 witness: the round trip on the concrete compact form
`"93040100196"`. -/
theorem nn_compact_format_roundtrip_witness :
    BeNN.compact (BeNN.format ['9', '3', '0', '4', '0', '1', '0', '0', '1',
      '9', '6']) =
      .ok ['9', '3', '0', '4', '0', '1', '0', '0', '1', '9', '6'] :=
  nn_compact_format_roundtrip ['9', '3', '0', '4', '0', '1', '0', '0', '1',
    '9', '6'] (by decide) (by decide)

/-- C10: an 11-digit positive input beginning `"000000"` is NOT the
documented sentinel, yet passes structural validation through the
year-only-known branch; when both century starts 1900 and 2000 are not
after now plus one day it yields exactly the two bases `baseNumber` and
2-prefixed `baseNumber`, and validates exactly when either basis
satisfies the checksum equation. -/
theorem nn_all_zero_first_six (now : Int) (s : List Char)
    (hdig : isdigits s = true) (hlen : s.length = 11)
    (hpos : 0 < parseDigits s)
    (h6 : s.take 6 = ['0', '0', '0', '0', '0', '0'])
    (h19s : dateMs 1900 1 1 ≤ now + ONE_DAY)
    (h20s : dateMs 2000 1 1 ≤ now + ONE_DAY) :
    BeNN.isCompletelyUnknownDob (BeNN.getFirstSix s) = false ∧
    BeNN.isDobWithOnlyYearKnown (BeNN.getFirstSix s) = true ∧
    BeNN.validStructure now s = true ∧
    BeNN.getChecksumBases now s =
      [(BeNN.getBaseNumberAndChecksum s).1,
        parseDigits ('2' :: natRepr (BeNN.getBaseNumberAndChecksum s).1)] ∧
    (BeNN.validateRun now s = .ok (.valid s true false) ↔
      ((BeNN.getBaseNumberAndChecksum s).1 % 97 + parseDigits (s.drop 9) =
          97 ∨
        parseDigits ('2' :: natRepr (BeNN.getBaseNumberAndChecksum s).1) %
          97 + parseDigits (s.drop 9) = 97)) := by
  have hF : BeNN.getFirstSix s = ['0', '0', '0', '0', '0', '0'] := h6
  have hsent : BeNN.isCompletelyUnknownDob (BeNN.getFirstSix s) = false := by
    rw [hF]
    decide
  have hyo : BeNN.isDobWithOnlyYearKnown (BeNN.getFirstSix s) = true := by
    rw [hF]
    decide
  have hstr : BeNN.validStructure now s = true := by
    unfold BeNN.validStructure BeNN.isValidFirstSix
    rw [hsent, hyo]
    simp
  have hy1 : BeNN.yearHasStarted now 1900 = true := by
    unfold BeNN.yearHasStarted BeNN.getApproximatelyNow
    exact decide_eq_true h19s
  have hy2 : BeNN.yearHasStarted now 2000 = true := by
    unfold BeNN.yearHasStarted BeNN.getApproximatelyNow
    exact decide_eq_true h20s
  have hbase : ∀ bn : Nat,
      BeNN.getBaseNumbersForOnlyYearKnown now ['0', '0', '0', '0', '0', '0']
        bn = [bn, parseDigits ('2' :: natRepr bn)] := by
    intro bn
    unfold BeNN.getBaseNumbersForOnlyYearKnown
    have e : ([['1', '9'], ['2', '0']].map fun p =>
        parseDigits (p ++ (BeNN.toDateArray ['0', '0', '0', '0', '0',
          '0']).1)) = [1900, 2000] := by decide
    simp only [e, List.filter_cons, List.filter_nil, hy1, hy2, if_true,
      List.map_cons, List.map_nil]
    unfold BeNN.toChecksumBasis
    norm_num
  have hbases : BeNN.getChecksumBases now s =
      [(BeNN.getBaseNumberAndChecksum s).1,
        parseDigits ('2' :: natRepr (BeNN.getBaseNumberAndChecksum s).1)] := by
    simp only [BeNN.getChecksumBases, hsent, hyo, Bool.false_eq_true,
      if_false, if_true]
    rw [hF]
    exact hbase (BeNN.getBaseNumberAndChecksum s).1
  have hvc : BeNN.validChecksum now s = true ↔
      ((BeNN.getBaseNumberAndChecksum s).1 % 97 + parseDigits (s.drop 9) =
          97 ∨
        parseDigits ('2' :: natRepr (BeNN.getBaseNumberAndChecksum s).1) %
          97 + parseDigits (s.drop 9) = 97) := by
    rw [BeNN.validChecksum_iff now s, hbases]
    simp
  have hpipe : BeNN.validateRun now s =
      (if BeNN.validChecksum now s = false then
        .ok (.invalid .InvalidChecksum)
      else .ok (.valid s true false)) := by
    rw [BeNN.validateRun_checks now s hdig hpos hlen, hstr]
    simp
  refine ⟨hsent, hyo, hstr, hbases, ?_, ?_⟩
  · intro h
    apply hvc.mp
    rcases Bool.eq_false_or_eq_true (BeNN.validChecksum now s) with hv | hv
    · exact hv
    · rw [hpipe, hv] at h
      simp at h
  · intro h
    have hv : BeNN.validChecksum now s = true := hvc.mpr h
    rw [hpipe, hv]
    simp

/-- C10 witness: at the instant 2023-11-14 the input `"00000000196"`
(first six digits all zero, base number 1, checksum 96) instantiates the
theorem; both 1900 and 2000 have started, the bases are [1, 21], and
1 % 97 + 96 = 97 makes the number valid. -/
theorem nn_all_zero_first_six_witness :
    BeNN.isCompletelyUnknownDob (BeNN.getFirstSix ['0', '0', '0', '0', '0',
      '0', '0', '0', '1', '9', '6']) = false ∧
    BeNN.isDobWithOnlyYearKnown (BeNN.getFirstSix ['0', '0', '0', '0', '0',
      '0', '0', '0', '1', '9', '6']) = true ∧
    BeNN.validStructure 1700000000000 ['0', '0', '0', '0', '0', '0', '0',
      '0', '1', '9', '6'] = true ∧
    BeNN.getChecksumBases 1700000000000 ['0', '0', '0', '0', '0', '0', '0',
        '0', '1', '9', '6'] =
      [(BeNN.getBaseNumberAndChecksum ['0', '0', '0', '0', '0', '0', '0',
          '0', '1', '9', '6']).1,
        parseDigits ('2' :: natRepr (BeNN.getBaseNumberAndChecksum ['0',
          '0', '0', '0', '0', '0', '0', '0', '1', '9', '6']).1)] ∧
    (BeNN.validateRun 1700000000000 ['0', '0', '0', '0', '0', '0', '0', '0',
        '1', '9', '6'] =
      .ok (.valid ['0', '0', '0', '0', '0', '0', '0', '0', '1', '9', '6']
        true false) ↔
      ((BeNN.getBaseNumberAndChecksum ['0', '0', '0', '0', '0', '0', '0',
          '0', '1', '9', '6']).1 % 97 +
          parseDigits (['0', '0', '0', '0', '0', '0', '0', '0', '1', '9',
            '6'].drop 9) = 97 ∨
        parseDigits ('2' :: natRepr (BeNN.getBaseNumberAndChecksum ['0',
          '0', '0', '0', '0', '0', '0', '0', '1', '9', '6']).1) % 97 +
          parseDigits (['0', '0', '0', '0', '0', '0', '0', '0', '1', '9',
            '6'].drop 9) = 97)) :=
  nn_all_zero_first_six 1700000000000 ['0', '0', '0', '0', '0', '0', '0',
    '0', '1', '9', '6'] (by decide) (by decide) (by decide) (by decide)
    (by decide) (by decide)

namespace Registry

/-- The `Validator` interface of `src/types.ts` as the registry consumes
it: dispatch only ever calls `validate` and reads `isValid`.  The
individual country validators live in country modules outside the
embedded sources, so registry theorems quantify over them. -/
structure Validator where
  validate : List Char → ValidateReturn

/-- The result shape of `validatePerson`: `{ checked }` alone, or
`{ checked, isValid }`; a missing `isValid` field is `none`. -/
structure CheckResult where
  checked : Bool
  isValid : Option Bool
deriving DecidableEq, Repr

/-- Modelled from the spec: `toLocaleUpperCase` on the ASCII two-letter
ISO 3166-1 country codes the registry keys on. -/
def upperAscii (s : String) : String := ⟨s.data.map Char.toUpper⟩

/-- The exact key set of the `personValidators` record of `index.ts`. -/
def personValidatorCountries : List String :=
  ["AZ", "BA", "BG", "BY", "CN", "CH", "CU", "CZ", "DE", "EE", "ES", "FI",
    "FR", "GB", "GR", "HK", "HR", "ID", "IE", "IL", "IN", "IS", "IT", "LI",
    "LT", "LU", "LV", "MU", "KR", "MX", "MY", "NL", "NZ", "PE", "TH", "US",
    "UY", "ZA"]

/-- The `personValidators` record of `index.ts`: a lookup defined for
exactly the registered country codes (an absent key reads as `none`,
JavaScript `undefined`); the per-country validator lists are abstracted
by `assign` since their modules are outside the embedded sources. -/
def personValidators (assign : String → List Validator) (country : String) :
    Option (List Validator) :=
  if country ∈ personValidatorCountries then some (assign country) else none

/-- `validatePerson` of `index.ts`, over an arbitrary lookup table
`tbl`: read the list at the upper-cased country code; if it is missing
or empty report `{ checked := false }`; otherwise report checked with
`isValid` true iff some validator in the list accepts the value. -/
def validatePerson (tbl : String → Option (List Validator))
    (country : String) (value : List Char) : CheckResult :=
  match tbl (upperAscii country) with
  | none => { checked := false, isValid := none }
  | some vset =>
      if vset.length = 0 then { checked := false, isValid := none }
      else
        { checked := true,
          isValid := some (vset.any fun grp => (grp.validate value).isValid) }

theorem perm_any_eq (l l2 : List Validator)
    (p : Validator → Bool) (h : l.Perm l2) : l.any p = l2.any p := by
  cases hp : l.any p
  · cases hq : l2.any p
    · rfl
    · rw [List.any_eq_true] at hq
      obtain ⟨x, hx, hpx⟩ := hq
      have hl : l.any p = true := List.any_eq_true.mpr ⟨x, h.mem_iff.mpr hx,
        hpx⟩
      rw [hp] at hl
      exact hl
  · rw [List.any_eq_true] at hp
    obtain ⟨x, hx, hpx⟩ := hp
    exact (List.any_eq_true.mpr ⟨x, h.mem_iff.mp hx, hpx⟩).symm

/-- C8: registry-level person validation reports `{ checked := false }`
exactly when the upper-cased country code has no (or an empty) validator
list — in particular for the unregistered code `"ZZ"` whatever validator
lists the registered countries carry — and otherwise reports checked
with `isValid` true iff some validator in the list accepts, a boolean
outcome invariant under reordering the list. -/
theorem registry_person_dispatch :
    (∀ (tbl : String → Option (List Validator)) (country : String)
      (value : List Char),
      (tbl (upperAscii country) = none →
        validatePerson tbl country value = ⟨false, none⟩) ∧
      (tbl (upperAscii country) = some [] →
        validatePerson tbl country value = ⟨false, none⟩) ∧
      (∀ vs, tbl (upperAscii country) = some vs → vs ≠ [] →
        validatePerson tbl country value =
          ⟨true, some (vs.any fun g => (g.validate value).isValid)⟩ ∧
        ((vs.any fun g => (g.validate value).isValid) = true ↔
          ∃ g ∈ vs, (g.validate value).isValid = true))) ∧
    (∀ (tbl tbl2 : String → Option (List Validator)) (country : String)
      (value : List Char) (vs vs2 : List Validator),
      tbl (upperAscii country) = some vs →
      tbl2 (upperAscii country) = some vs2 → vs.Perm vs2 →
      validatePerson tbl country value = validatePerson tbl2 country value) ∧
    (∀ (assign : String → List Validator) (value : List Char),
      validatePerson (personValidators assign) "ZZ" value =
        ⟨false, none⟩) := by
  refine ⟨?_, ?_, ?_⟩
  · intro tbl country value
    refine ⟨?_, ?_, ?_⟩
    · intro h
      unfold validatePerson
      rw [h]
    · intro h
      unfold validatePerson
      rw [h]
      rfl
    · intro vs h hne
      have hlen : ¬ vs.length = 0 := fun he =>
        hne (List.length_eq_zero.mp he)
      constructor
      · unfold validatePerson
        rw [h]
        simp only []
        rw [if_neg hlen]
      · exact List.any_eq_true
  · intro tbl tbl2 country value vs vs2 h h2 hperm
    unfold validatePerson
    rw [h, h2]
    simp only []
    by_cases hz : vs.length = 0
    · have hz2 : vs2.length = 0 := by rw [← hperm.length_eq]; exact hz
      rw [if_pos hz, if_pos hz2]
    · have hz2 : ¬ vs2.length = 0 := by rw [← hperm.length_eq]; exact hz
      rw [if_neg hz, if_neg hz2, perm_any_eq vs vs2 _ hperm]
  · intro assign value
    have hz : personValidators assign (upperAscii "ZZ") = none := by
      unfold personValidators
      rw [if_neg]
      have hu : upperAscii "ZZ" = "ZZ" := by decide
      rw [hu]
      decide
    unfold validatePerson
    rw [hz]

/-- C8 witness: a table with no entry at `"ZZ"` reports unchecked, and
so does the source's person table whatever its registered lists are —
instantiated with empty lists. -/
theorem registry_person_dispatch_witness :
    validatePerson (fun _ => none) "ZZ" [] = ⟨false, none⟩ ∧
    validatePerson (personValidators fun _ => []) "ZZ" [] =
      ⟨false, none⟩ :=
  ⟨(registry_person_dispatch.1 (fun _ => none) "ZZ" []).1 rfl,
    registry_person_dispatch.2.2 (fun _ => []) []⟩

end Registry

end Stdnum
